import Mathlib

/-!
Verification of SimpleChatMonitor (src/Monitor) against its specification.

The Python modules are shallowly embedded:
* `Monitor/twitchbot_functions/message_filter.py`: `MessageChecker.check_message`,
  `CheckResult`, `BanEvent`.
* `Monitor/twitch_bot.py`: the ban-event registry (`add_ban_event`, `remove_ban_event`).
* `Monitor/twitchbot_functions/voting.py`: `Voter`.
* `Monitor/twitchbot_functions/gambling.py`: `GambleParser`.

Scores are modelled over `Int`: the Python code stores them in floats, but every
value a claim touches (tier weights `int(tier, 10)`, match counts, the examples
in the spec) is an integer.  Character classes (`\W`, `IGNORECASE`) are modelled
on the ASCII range, plus the exact cyrillic block used by `CYRILLIC_RE`.
-/

set_option autoImplicit false

deriving instance DecidableEq for Except

namespace SCM

/-! ## message_filter.py: result types -/

inductive CheckResultType where
  | MATCH
  | NO_MATCH
  | IGNORED
  | ERROR
  deriving DecidableEq, Repr

inductive IgnoreReason where
  | FRIENDLY_BOT
  | CHANNEL_STAFF
  | VIP
  | SUBSCRIBER
  | FOLLOWER
  deriving DecidableEq, Repr

/-- The fields of `CheckResult` that `check_message` fills in
(`checker_name`, `result_type`, `ignore_reason`, `message_score`). -/
structure CheckResult where
  checkerName : String
  resultType : CheckResultType
  ignoreReason : Option IgnoreReason
  messageScore : Int
  deriving DecidableEq, Repr

/-- Python exceptions that `check_message` can raise:
`ValueError` from `int(tier, base=10)` on a non-numeric tier key, and
`NameError`/`UnboundLocalError` when the follower ignore-rule reads
`follow_event_list` although no token was stored for the channel. -/
inductive CheckError where
  | valueError
  | nameError
  deriving DecidableEq, Repr

/-- Abstraction of the `twitchio.Message` data `check_message` consults. -/
structure Event where
  content : String
  authorDisplayName : String
  isBroadcaster : Bool
  isMod : Bool
  hasVipBadge : Bool
  isSubscriber : Bool
  first : Bool
  channelName : String
  /-- Follow information.  `some d`: the author follows the channel since `d` days
  (the fetched follow list is nonempty); `none`: not following. -/
  followDays : Option Nat
  deriving DecidableEq, Repr

/-- The `MessageChecker` state after `__init__`/`read_config_file`.
`joinedChannels` holds the channels for which a truthy OAuth token is stored. -/
structure MessageChecker where
  name : String
  joinedChannels : List String
  /-- Models `flagged_re`: tier key (a string, parsed with `int(tier, 10)` during the
  check) together with the list of phrases joined into one alternation. -/
  flaggedTiers : List (String × List String)
  cyrillicsScore : Option Int
  minScore : Int
  followTimeDaysCutoff : Nat
  followTimeMultiplier : Int
  firstTimeChatterMultiplier : Int
  botNames : List String
  silentIgnoreBots : Bool
  ignoreChannelStaff : Bool
  ignoreVip : Bool
  ignoreSubscriber : Bool
  ignoreFollower : Bool
  deriving DecidableEq, Repr

/-! ## message_filter.py: message normalisation and tier matching -/

/-- Models the regex IGNORED_SET, class backslash-W plus underscore, substituted
away: the normalisation keeps exactly the word characters other than the
underscore (modelled on the ASCII range). -/
def isWordChar (c : Char) : Bool := c.isAlphanum

def normalizeMsg (s : String) : List Char := s.data.filter isWordChar

/-- Case-insensitive test that the phrase `p` matches at the start of `s`
(`re.IGNORECASE`, ASCII case folding). -/
def phraseAt (p s : List Char) : Bool :=
  (s.take p.length).map Char.toLower == p.map Char.toLower

/-- The first alternative of the pattern `p1|p2|...` that matches at the start
of `s` (Python alternation is ordered, not longest-match). -/
def firstAlt (ps : List (List Char)) (s : List Char) : Option (List Char) :=
  ps.find? (fun p => phraseAt p s)

/-- One left-to-right scan of `re.findall` for an alternation of literal
phrases: at each position take the first alternative that matches, record the
matched text (in its original case) and continue behind it; an empty match
advances one character.  `fuel` only bounds the recursion; `s.length` is always
enough because every step consumes at least one character. -/
def scanFuel (ps : List (List Char)) : Nat → List Char → List (List Char)
  | _, [] => if (firstAlt ps []).isSome then [[]] else []
  | 0, _ :: _ => []
  | fuel + 1, c :: rest =>
    match firstAlt ps (c :: rest) with
    | none => scanFuel ps fuel rest
    | some [] => [] :: scanFuel ps fuel rest
    | some (p0 :: p1) =>
      ((c :: rest).take (p0 :: p1).length) :: scanFuel ps fuel (List.drop (p0 :: p1).length (c :: rest))

/-- Models `re.findall(tier_re, filtered_msg)` for the tier alternation. -/
def scanMatches (ps : List (List Char)) (s : List Char) : List (List Char) :=
  scanFuel ps s.length s

def digitsVal (l : List Char) : Nat := l.foldl (fun a c => 10 * a + (c.toNat - 48)) 0

/-- Models `int(s, base=10)` on optionally-signed digit strings (the only forms the
configs use); any other string raises `ValueError`, modelled as `none`. -/
def parseBase10 (s : String) : Option Int :=
  match s.data with
  | '-' :: ds =>
    if ds ≠ [] ∧ ds.all Char.isDigit then some (-(digitsVal ds : Int)) else none
  | ds =>
    if ds ≠ [] ∧ ds.all Char.isDigit then some ((digitsVal ds : Int)) else none

/-- The message-filtering loop of `check_message`: for every tier,
`int(tier, 10) * len(set(re.findall(tier_re, filtered_msg)))` is added to the
score (the `set` keeps distinct matched texts, modelled by `List.dedup`). -/
def tierScore : List (String × List String) → List Char → Except CheckError Int
  | [], _ => Except.ok 0
  | (key, phrases) :: rest, filtered =>
    match parseBase10 key with
    | none => Except.error CheckError.valueError
    | some w =>
      match tierScore rest filtered with
      | Except.error e => Except.error e
      | Except.ok q =>
        Except.ok (w * ((scanMatches (phrases.map String.data) filtered).dedup.length : Int) + q)

/-- Models the CYRILLIC_RE character class: А to Я, а to я, Ё and ё. -/
def isCyrillicChar (c : Char) : Bool :=
  (0x410 ≤ c.toNat && c.toNat ≤ 0x44F) || c.toNat == 0x401 || c.toNat == 0x451

/-- The cyrillics addition: only applied when `self.cyrillics_score` is truthy
(not `None` and nonzero) and the raw content has a cyrillic character. -/
def cyrillicsAdd (c : MessageChecker) (content : String) : Int :=
  match c.cyrillicsScore with
  | none => 0
  | some q => if q = 0 then 0 else if content.data.any isCyrillicChar then q else 0

/-- Models `joined_channels.get(channel)` followed by `fetch_channel_followers`:
`none` when no truthy token is stored (so `follow_event_list` stays unbound),
`some f` for the fetched follow information otherwise. -/
def fetchedFollowers (c : MessageChecker) (m : Event) : Option (Option Nat) :=
  if m.channelName ∈ c.joinedChannels then some m.followDays else none

/-- The score `check_message` computes before the match/no-match decision:
tier matching, cyrillics, follow-time multiplier, first-time-chatter
multiplier, in source order. -/
def scoreOf (c : MessageChecker) (m : Event) : Except CheckError Int :=
  match tierScore c.flaggedTiers (normalizeMsg m.content) with
  | Except.error e => Except.error e
  | Except.ok base =>
    let s1 := base + cyrillicsAdd c m.content
    let s2 :=
      match fetchedFollowers c m with
      | none => s1
      | some (some d) => if d ≤ c.followTimeDaysCutoff then s1 * c.followTimeMultiplier else s1
      | some none => s1 * c.followTimeMultiplier
    Except.ok (if m.first then s2 * c.firstTimeChatterMultiplier else s2)

/-- The ignore-checking `if/elif` chain at the end of `check_message`, applied
to the tentative result `pre`.  The first branch (friendly bots) does not test
`pre`; the channel-staff, VIP, subscriber and follower branches downgrade only
a `MATCH`.  The follower guard reads `follow_event_list`, which raises
`NameError` when the fetch never ran (no stored token). -/
def applyIgnores (c : MessageChecker) (m : Event) (fetched : Option (Option Nat))
    (pre : CheckResultType) : Except CheckError (CheckResultType × Option IgnoreReason) :=
  if c.silentIgnoreBots ∧ m.authorDisplayName ∈ c.botNames then
    Except.ok (CheckResultType.IGNORED, some IgnoreReason.FRIENDLY_BOT)
  else if c.ignoreChannelStaff ∧ (m.isBroadcaster ∨ m.isMod) then
    if pre = CheckResultType.MATCH then
      Except.ok (CheckResultType.IGNORED, some IgnoreReason.CHANNEL_STAFF)
    else Except.ok (pre, none)
  else if c.ignoreVip ∧ m.hasVipBadge then
    if pre = CheckResultType.MATCH then
      Except.ok (CheckResultType.IGNORED, some IgnoreReason.VIP)
    else Except.ok (pre, none)
  else if c.ignoreSubscriber ∧ m.isSubscriber then
    if pre = CheckResultType.MATCH then
      Except.ok (CheckResultType.IGNORED, some IgnoreReason.SUBSCRIBER)
    else Except.ok (pre, none)
  else if c.ignoreFollower then
    match fetched with
    | none => Except.error CheckError.nameError
    | some none => Except.ok (pre, none)
    | some (some _) =>
      if pre = CheckResultType.MATCH then
        Except.ok (CheckResultType.IGNORED, some IgnoreReason.FOLLOWER)
      else Except.ok (pre, none)
  else Except.ok (pre, none)

/-- Models `MessageChecker.check_message`.  When the config file was never read the
name is still `default` and the check returns `ERROR` immediately; otherwise
the score is computed, compared against `min_score`, and the ignore chain runs. -/
def checkMessage (c : MessageChecker) (m : Event) : Except CheckError CheckResult :=
  if c.name = "default" then
    Except.ok { checkerName := c.name, resultType := CheckResultType.ERROR,
                ignoreReason := none, messageScore := 0 }
  else
    match scoreOf c m with
    | Except.error e => Except.error e
    | Except.ok q =>
      let pre : CheckResultType :=
        if c.minScore ≤ q then CheckResultType.MATCH else CheckResultType.NO_MATCH
      match applyIgnores c m (fetchedFollowers c m) pre with
      | Except.error e => Except.error e
      | Except.ok (rt, ir) =>
        Except.ok { checkerName := c.name, resultType := rt, ignoreReason := ir,
                    messageScore := q }

/-- The result type of a finished check, `none` when an exception escaped. -/
def resultTypeOf (x : Except CheckError CheckResult) : Option CheckResultType :=
  match x with
  | Except.ok r => some r.resultType
  | Except.error _ => none

/-! ## Example states used by witnesses and counterexamples -/

/-- A configured checker: one tier of weight 10 with the single phrase `spam`,
friendly bot `Nightbot` silently ignored. -/
def exChecker : MessageChecker :=
  { name := "f", joinedChannels := [], flaggedTiers := [("10", ["spam"])],
    cyrillicsScore := none, minScore := 999, followTimeDaysCutoff := 0,
    followTimeMultiplier := 1, firstTimeChatterMultiplier := 1,
    botNames := ["Nightbot"], silentIgnoreBots := true, ignoreChannelStaff := false,
    ignoreVip := false, ignoreSubscriber := false, ignoreFollower := false }

/-- A checker that never read its config file: the name is still `default`. -/
def exDefaultChecker : MessageChecker := { exChecker with name := "default" }

/-- A harmless message (`hello`, score 0) sent by the friendly bot. -/
def exEvent : Event :=
  { content := "hello", authorDisplayName := "Nightbot", isBroadcaster := false,
    isMod := false, hasVipBadge := false, isSubscriber := false, first := false,
    channelName := "chan", followDays := none }

/-! ## Claim C1 -/

/-- C1: for every chat event, if no rule set has been loaded (the checker still
carries the name `default` because no config file was read), `check_message`
returns a result whose outcome is `ERROR`, and in particular never `MATCH`,
regardless of the event. -/
theorem c1_unconfigured_always_error (c : MessageChecker) (m : Event)
    (h : c.name = "default") :
    resultTypeOf (checkMessage c m) = some CheckResultType.ERROR ∧
    resultTypeOf (checkMessage c m) ≠ some CheckResultType.MATCH := by
  have hres : checkMessage c m =
      Except.ok { checkerName := c.name, resultType := CheckResultType.ERROR,
                  ignoreReason := none, messageScore := 0 } := by
    unfold checkMessage
    rw [if_pos h]
  rw [hres]
  exact ⟨rfl, by simp [resultTypeOf]⟩

/-- Witness for C1 at a concrete unconfigured checker and event. -/
theorem c1_unconfigured_always_error_witness :
    resultTypeOf (checkMessage exDefaultChecker exEvent) = some CheckResultType.ERROR ∧
    resultTypeOf (checkMessage exDefaultChecker exEvent) ≠ some CheckResultType.MATCH :=
  c1_unconfigured_always_error exDefaultChecker exEvent rfl

/-! ## Claim C4 -/

/-- C4 counterexample: `exEvent` scores 0, far below the threshold 999, and its
author `Nightbot` is a configured friendly bot with `silent_ignore_bots` on.
The claim says the outcome must stay `NO_MATCH`; the code returns `IGNORED`,
because the friendly-bot branch does not test for a tentative `MATCH`. -/
theorem c4_counterexample :
    scoreOf exChecker exEvent = Except.ok 0 ∧
    exChecker.minScore = 999 ∧
    resultTypeOf (checkMessage exChecker exEvent) = some CheckResultType.IGNORED ∧
    resultTypeOf (checkMessage exChecker exEvent) ≠ some CheckResultType.NO_MATCH := by
  refine ⟨by decide, by decide, by decide, by decide⟩

/-- C4 (amended): the channel-staff, VIP, subscriber and follower ignore rules
only downgrade a tentative `MATCH` to `IGNORED` with the corresponding reason
and never change a `NO_MATCH`; the friendly-bot rule is the exception: when
`silent_ignore_bots` is on and the author is a configured friendly bot it
returns `IGNORED`/`FRIENDLY_BOT` whatever the tentative outcome was; an
`ERROR` outcome is returned before the ignore chain runs, so it is never
changed either. -/
theorem c4_ignores_amended (c : MessageChecker) (m : Event)
    (fetched : Option (Option Nat)) (rt : CheckResultType) (ir : Option IgnoreReason) :
    (¬(c.silentIgnoreBots = true ∧ m.authorDisplayName ∈ c.botNames) →
      applyIgnores c m fetched CheckResultType.NO_MATCH = Except.ok (rt, ir) →
      rt = CheckResultType.NO_MATCH ∧ ir = none) ∧
    (c.silentIgnoreBots = true → m.authorDisplayName ∈ c.botNames →
      ∀ pre : CheckResultType, applyIgnores c m fetched pre =
        Except.ok (CheckResultType.IGNORED, some IgnoreReason.FRIENDLY_BOT)) ∧
    (applyIgnores c m fetched CheckResultType.MATCH = Except.ok (rt, ir) →
      (rt = CheckResultType.MATCH ∧ ir = none) ∨
      (rt = CheckResultType.IGNORED ∧ ir ≠ none)) ∧
    (c.name = "default" → resultTypeOf (checkMessage c m) = some CheckResultType.ERROR) := by
  refine ⟨?_, ?_, ?_, ?_⟩
  · intro hnf h
    unfold applyIgnores at h
    rw [if_neg hnf] at h
    split_ifs at h <;>
      rcases fetched with _ | (_ | d) <;>
      simp_all
  · intro hsil hbot pre
    unfold applyIgnores
    rw [if_pos ⟨hsil, hbot⟩]
  · intro h
    unfold applyIgnores at h
    split_ifs at h <;>
      rcases fetched with _ | (_ | d) <;>
      simp_all
    all_goals exact Or.inr (by rw [← h.2]; simp)
  · intro h
    unfold checkMessage
    rw [if_pos h]
    rfl

/-- Witness for C4 (amended): the hypotheses hold at concrete states — a
non-bot author keeps `NO_MATCH` untouched, the friendly bot is ignored from a
`NO_MATCH`, a `MATCH` survives an empty ignore configuration, and the
unconfigured checker errors. -/
theorem c4_ignores_amended_witness :
    (CheckResultType.NO_MATCH = CheckResultType.NO_MATCH ∧
      (none : Option IgnoreReason) = none) ∧
    applyIgnores exChecker exEvent none CheckResultType.MATCH =
      Except.ok (CheckResultType.IGNORED, some IgnoreReason.FRIENDLY_BOT) ∧
    ((CheckResultType.MATCH = CheckResultType.MATCH ∧
        (none : Option IgnoreReason) = none) ∨
      (CheckResultType.MATCH = CheckResultType.IGNORED ∧
        (none : Option IgnoreReason) ≠ none)) ∧
    resultTypeOf (checkMessage exDefaultChecker exEvent) = some CheckResultType.ERROR :=
  ⟨(c4_ignores_amended exChecker { exEvent with authorDisplayName := "alice" } none
      CheckResultType.NO_MATCH none).1 (by decide) (by decide),
   (c4_ignores_amended exChecker exEvent none CheckResultType.MATCH none).2.1
      (by decide) (by decide) CheckResultType.MATCH,
   (c4_ignores_amended { exChecker with silentIgnoreBots := false, botNames := [] }
      exEvent none CheckResultType.MATCH none).2.2.1 (by decide),
   (c4_ignores_amended exDefaultChecker exEvent none CheckResultType.MATCH none).2.2.2 rfl⟩

/-! ## Claim C5 -/

/-- C5: for an event whose score reaches the threshold, whose author is in the
friendly-bot list with `silent_ignore_bots` on, and who also is channel staff
with `ignore_channel_staff` on, the check returns `IGNORED` with reason
`FRIENDLY_BOT`, not `CHANNEL_STAFF`: the friendly-bot rule comes first in the
`if/elif` chain and is the only one recorded. -/
theorem c5_friendly_bot_precedence (c : MessageChecker) (m : Event) (q : Int)
    (hname : c.name ≠ "default")
    (hscore : scoreOf c m = Except.ok q) (hmin : c.minScore ≤ q)
    (hsil : c.silentIgnoreBots = true) (hbot : m.authorDisplayName ∈ c.botNames)
    (hstaff : c.ignoreChannelStaff = true)
    (hrole : m.isBroadcaster = true ∨ m.isMod = true) :
    checkMessage c m =
      Except.ok { checkerName := c.name, resultType := CheckResultType.IGNORED,
                  ignoreReason := some IgnoreReason.FRIENDLY_BOT, messageScore := q } ∧
    some IgnoreReason.FRIENDLY_BOT ≠ some IgnoreReason.CHANNEL_STAFF := by
  refine ⟨?_, by simp⟩
  unfold checkMessage
  rw [if_neg hname, hscore]
  dsimp only
  rw [if_pos hmin]
  unfold applyIgnores
  rw [if_pos ⟨hsil, hbot⟩]

/-- Witness for C5: the score of `spam` from the staff friendly bot is 10,
reaching the threshold 10, and the decision is `IGNORED`/`FRIENDLY_BOT`. -/
theorem c5_friendly_bot_precedence_witness :
    checkMessage { exChecker with minScore := 10, ignoreChannelStaff := true }
        { exEvent with content := "spam", isMod := true } =
      Except.ok { checkerName := "f", resultType := CheckResultType.IGNORED,
                  ignoreReason := some IgnoreReason.FRIENDLY_BOT, messageScore := 10 } ∧
    some IgnoreReason.FRIENDLY_BOT ≠ some IgnoreReason.CHANNEL_STAFF :=
  c5_friendly_bot_precedence
    { exChecker with minScore := 10, ignoreChannelStaff := true }
    { exEvent with content := "spam", isMod := true } 10
    (by decide) (by decide) (by decide) (by decide) (by decide) (by decide)
    (Or.inr (by decide))

/-! ## Claim C6 -/

lemma scanFuel_fuel_irrel (ps : List (List Char)) :
    ∀ (f g : Nat) (s : List Char), s.length ≤ f → s.length ≤ g →
      scanFuel ps f s = scanFuel ps g s := by
  intro f
  induction f with
  | zero =>
    intro g s hf _
    cases s with
    | nil => cases g <;> rfl
    | cons c rest => simp at hf
  | succ f ih =>
    intro g s hf hg
    cases s with
    | nil => cases g <;> rfl
    | cons c rest =>
      cases g with
      | zero => simp at hg
      | succ g =>
        simp only [List.length_cons, Nat.add_le_add_iff_right] at hf hg
        show scanFuel ps (f + 1) (c :: rest) = scanFuel ps (g + 1) (c :: rest)
        unfold scanFuel
        cases hfa : firstAlt ps (c :: rest) with
        | none => simp only [hfa]; exact ih g rest hf hg
        | some p =>
          cases p with
          | nil => simp only [hfa]; rw [ih g rest hf hg]
          | cons p0 p1 =>
            simp only [hfa]
            have hlen : (List.drop (p0 :: p1).length (c :: rest)).length ≤ f := by
              simp only [List.length_drop, List.length_cons]
              omega
            have hlen2 : (List.drop (p0 :: p1).length (c :: rest)).length ≤ g := by
              simp only [List.length_drop, List.length_cons]
              omega
            rw [ih g _ hlen hlen2]

lemma scanMatches_nil_of_ne (p : List Char) (hp : p ≠ []) :
    scanMatches [p] [] = [] := by
  cases p with
  | nil => exact absurd rfl hp
  | cons c p1 => rfl

lemma scanMatches_append_self (p t : List Char) (hp : p ≠ []) :
    scanMatches [p] (p ++ t) = p :: scanMatches [p] t := by
  cases p with
  | nil => exact absurd rfl hp
  | cons c p1 =>
    have hph : phraseAt (c :: p1) (c :: (p1 ++ t)) = true := by
      show phraseAt (c :: p1) ((c :: p1) ++ t) = true
      unfold phraseAt
      rw [List.take_left]
      exact beq_self_eq_true _
    have hfa : firstAlt [c :: p1] (c :: (p1 ++ t)) = some (c :: p1) := by
      unfold firstAlt
      simp [List.find?, hph]
    show scanFuel [c :: p1] ((p1 ++ t).length + 1) (c :: (p1 ++ t)) =
      (c :: p1) :: scanMatches [c :: p1] t
    unfold scanFuel
    simp only [hfa]
    show ((c :: p1) ++ t).take ((c :: p1)).length ::
        scanFuel [c :: p1] (p1 ++ t).length (List.drop ((c :: p1)).length ((c :: p1) ++ t)) =
      (c :: p1) :: scanMatches [c :: p1] t
    rw [List.take_left, List.drop_left]
    rw [scanFuel_fuel_irrel [c :: p1] (p1 ++ t).length t.length t
      (by simp [List.length_append]) (Nat.le_refl _)]
    rfl

/-- Builds `k` literal concatenated copies of a phrase. -/
def copies : Nat → List Char → List Char
  | 0, _ => []
  | n + 1, p => p ++ copies n p

lemma scanMatches_copies (p : List Char) (hp : p ≠ []) :
    ∀ k : Nat, scanMatches [p] (copies (k + 1) p) = List.replicate (k + 1) p := by
  intro k
  induction k with
  | zero =>
    show scanMatches [p] (p ++ ([] : List Char)) = [p]
    rw [scanMatches_append_self p _ hp, scanMatches_nil_of_ne p hp]
  | succ k ih =>
    show scanMatches [p] (p ++ copies (k + 1) p) = _
    rw [scanMatches_append_self p _ hp, ih]
    rfl

/-- C6 (amended): each tier adds `int(tier, 10)` times the number of distinct
matched texts (the `set` of the `re.findall` results: matching is
case-insensitive, the set of matched texts is case-sensitive); a phrase
repeated literally is counted exactly once, so `k + 1` concatenated copies of
a phrase score exactly like one copy. -/
theorem c6_tier_scoring_amended (key : String) (w : Int) (ps : List String)
    (filtered : List Char) (p : List Char) (k : Nat)
    (hkey : parseBase10 key = some w) (hp : p ≠ []) :
    tierScore [(key, ps)] filtered =
      Except.ok (w * ((scanMatches (ps.map String.data) filtered).dedup.length : Int)) ∧
    tierScore [(key, [String.mk p])] (copies (k + 1) p) =
      tierScore [(key, [String.mk p])] (copies 1 p) ∧
    tierScore [(key, [String.mk p])] (copies (k + 1) p) = Except.ok (w * 1) := by
  have hsingle : ∀ n : Nat,
      tierScore [(key, [String.mk p])] (copies (n + 1) p) = Except.ok (w * 1) := by
    intro n
    unfold tierScore
    rw [hkey]
    show Except.ok (w * ((scanMatches [p] (copies (n + 1) p)).dedup.length : Int) + 0) = _
    rw [scanMatches_copies p hp n, List.replicate_dedup (Nat.succ_ne_zero n)]
    norm_num
  refine ⟨?_, ?_, hsingle k⟩
  · simp [tierScore, hkey]
  · rw [hsingle k, hsingle 0]

/-- Witness for C6 (amended) with key `10`, phrase `spam` and three copies. -/
theorem c6_tier_scoring_amended_witness :
    tierScore [("10", ["spam"])] (normalizeMsg "spam Spam") =
      Except.ok (10 * ((scanMatches (List.map String.data ["spam"])
        (normalizeMsg "spam Spam")).dedup.length : Int)) ∧
    tierScore [("10", [String.mk (String.data "spam")])] (copies (2 + 1) (String.data "spam")) =
      tierScore [("10", [String.mk (String.data "spam")])] (copies 1 (String.data "spam")) ∧
    tierScore [("10", [String.mk (String.data "spam")])] (copies (2 + 1) (String.data "spam")) =
      Except.ok (10 * 1) :=
  c6_tier_scoring_amended "10" 10 ["spam"] (normalizeMsg "spam Spam")
    (String.data "spam") 2 (by decide) (by decide)

/-- Tests that `p` matches case-insensitively at some position of `s`. -/
def occursCI (p : List Char) : List Char → Bool
  | [] => p.isEmpty
  | c :: rest => phraseAt p (c :: rest) || occursCI p rest

/-- The tier contribution as claim C6 words it: the tier key, read base 10,
times the number of distinct PHRASES of the tier matched somewhere in the
normalized message (each phrase counted at most once). -/
def claimTierContribution (key : String) (ps : List String) (filtered : List Char) :
    Option Int :=
  match parseBase10 key with
  | none => none
  | some w =>
    some (w * (((ps.map String.data).dedup.filter (fun p => occursCI p filtered)).length : Int))

/-- C6 counterexample: with one tier of key `10` and single phrase `spam`, the
normalized message `spamSpam` contains the one phrase repeated twice (the
second time with a different case, still matched under `IGNORECASE`), yet the
code scores it 20 — two distinct matched texts — while the claim predicts
weight times one distinct matched phrase, the score of a single occurrence. -/
theorem c6_counterexample :
    tierScore [("10", ["spam"])] (normalizeMsg "spam Spam") = Except.ok 20 ∧
    tierScore [("10", ["spam"])] (normalizeMsg "spam") = Except.ok 10 ∧
    claimTierContribution "10" ["spam"] (normalizeMsg "spam Spam") = some 10 ∧
    (Except.ok (20 : Int) : Except CheckError Int) ≠ Except.ok (10 : Int) := by
  refine ⟨by decide, by decide, by decide, by decide⟩

/-! ## message_filter.py: BanEvent (claim C2) -/

/-- The CancelError exception from custom_errors, raised by `BanEvent.cancel`. -/
inductive CancelError where
  | cancelConflict
  deriving DecidableEq, Repr

/-- Observable state of one `BanEvent`: whether `start` armed the timer
(`ban_timer is not None`), whether the timer callback already ran and created
the ban task, whether `TimerHandle.cancelled()` is set (only `cancel()` sets
it), and whether the ban coroutine ran. -/
structure BanState where
  started : Bool
  timerFired : Bool
  timerCancelled : Bool
  banExecuted : Bool
  deriving DecidableEq, Repr

def banInit : BanState :=
  { started := false, timerFired := false, timerCancelled := false, banExecuted := false }

/-- Models `BanEvent.cancel`: raises `CancelError` when `ban_timer` is `None` or when
`ban_timer.cancelled()`; otherwise closes the ban coroutine and cancels the
timer handle. -/
def banCancel (s : BanState) : Except CancelError BanState :=
  if s.started = false then Except.error CancelError.cancelConflict
  else if s.timerCancelled then Except.error CancelError.cancelConflict
  else Except.ok { s with timerCancelled := true }

/-- The event-loop transitions of a `BanEvent`: `start` arms the timer, the
loop fires an armed, uncancelled, unfired timer (running the ban), and a
successful `cancel` call steps to its result. -/
inductive BanStep : BanState → BanState → Prop where
  | start (s : BanState) : s.started = false → BanStep s { s with started := true }
  | fire (s : BanState) : s.started = true → s.timerFired = false →
      s.timerCancelled = false →
      BanStep s { s with timerFired := true, banExecuted := true }
  | cancelOk (s t : BanState) : banCancel s = Except.ok t → BanStep s t

lemma banStep_of_cancelled {s t : BanState} (h : BanStep s t)
    (hc : s.timerCancelled = true) :
    t.timerCancelled = true ∧ t.banExecuted = s.banExecuted := by
  cases h with
  | start hs => exact ⟨hc, rfl⟩
  | fire h1 h2 h3 => rw [hc] at h3; cases h3
  | cancelOk a hok =>
    unfold banCancel at hok
    split_ifs at hok

lemma banReach_of_cancelled {s t : BanState}
    (h : Relation.ReflTransGen BanStep s t) (hc : s.timerCancelled = true)
    (hb : s.banExecuted = false) :
    t.timerCancelled = true ∧ t.banExecuted = false := by
  induction h with
  | refl => exact ⟨hc, hb⟩
  | tail _ hstep ih =>
    obtain ⟨ihc, ihb⟩ := ih
    obtain ⟨h1, h2⟩ := banStep_of_cancelled hstep ihc
    exact ⟨h1, h2.trans ihb⟩

/-! ## Claim C2 -/

/-- The state right after `BanEvent.start`. -/
def armedBan : BanState :=
  { started := true, timerFired := false, timerCancelled := false, banExecuted := false }

/-- The state after the armed timer fired and the ban ran. -/
def firedBan : BanState :=
  { started := true, timerFired := true, timerCancelled := false, banExecuted := true }

/-- The state after a successful `cancel` of the armed timer. -/
def canceledBan : BanState :=
  { started := true, timerFired := false, timerCancelled := true, banExecuted := false }

/-- C2 counterexample: the fired state is reachable (start, then the timer
fires and the ban runs), yet `cancel` succeeds on it instead of raising the
conflict error the claim requires for an already-fired timer — and the
pending ban has already executed. -/
theorem c2_counterexample :
    BanStep banInit armedBan ∧
    BanStep armedBan firedBan ∧
    banCancel firedBan =
      Except.ok { started := true, timerFired := true, timerCancelled := true,
                  banExecuted := true } ∧
    firedBan.banExecuted = true :=
  ⟨BanStep.start banInit rfl,
   BanStep.fire armedBan rfl rfl rfl,
   by decide,
   rfl⟩

/-- C2 (amended): `cancel` raises the conflict error exactly when the handle
was never armed or was already canceled; a fired but uncanceled timer is
canceled without error (though its ban already ran).  On an armed uncanceled
handle the first `cancel` succeeds, a second raises the conflict error, and
after a successful cancel of a not-yet-fired timer the ban never executes
under any further steps. -/
theorem c2_cancel_amended (s t u : BanState) :
    ((banCancel s).isOk = false ↔ (s.started = false ∨ s.timerCancelled = true)) ∧
    (s.started = true → s.timerCancelled = false →
      banCancel s = Except.ok { s with timerCancelled := true } ∧
      (banCancel { s with timerCancelled := true }).isOk = false) ∧
    (banCancel s = Except.ok t → t.banExecuted = false →
      Relation.ReflTransGen BanStep t u → u.banExecuted = false) := by
  refine ⟨?_, ?_, ?_⟩
  · unfold banCancel
    constructor
    · intro h
      by_cases h1 : s.started = false
      · exact Or.inl h1
      · rw [if_neg h1] at h
        by_cases h2 : s.timerCancelled = true
        · exact Or.inr h2
        · rw [if_neg h2] at h; cases h
    · intro h
      rcases h with h | h
      · rw [if_pos h]; rfl
      · by_cases h1 : s.started = false
        · rw [if_pos h1]; rfl
        · rw [if_neg h1, if_pos h]; rfl
  · intro h1 h2
    constructor
    · unfold banCancel
      rw [h1]
      rw [if_neg (by simp), if_neg (by rw [h2]; simp)]
    · unfold banCancel
      rw [if_neg (by simp [h1]), if_pos (by simp)]
      rfl
  · intro hok hb hreach
    have hc : t.timerCancelled = true := by
      unfold banCancel at hok
      split_ifs at hok
      cases hok
      rfl
    exact (banReach_of_cancelled hreach hc hb).2

/-- Witness for C2 (amended) at the armed state. -/
theorem c2_cancel_amended_witness :
    ((banCancel armedBan).isOk = false ↔
      (armedBan.started = false ∨ armedBan.timerCancelled = true)) ∧
    (banCancel armedBan = Except.ok { armedBan with timerCancelled := true } ∧
      (banCancel { armedBan with timerCancelled := true }).isOk = false) ∧
    canceledBan.banExecuted = false := by
  obtain ⟨h1, h2, h3⟩ := c2_cancel_amended armedBan canceledBan canceledBan
  exact ⟨h1, h2 rfl rfl, h3 (by decide) rfl Relation.ReflTransGen.refl⟩

/-! ## twitch_bot.py: the ban-event registry (claim C3) -/

/-- Models `self.ban_events`: a dict from the author display name to the pending ban
event, modelled as an association list with distinct keys (insertion order). -/
abbrev Registry := List (String × Nat)

def regKeys (r : Registry) : List String := r.map Prod.fst

/-- Models `TwitchBot.add_ban_event`: when the user already has a ban event only a
warning is logged and the registry is unchanged; otherwise the event is
stored under the display name. -/
def addBanEvent (r : Registry) (name : String) (e : Nat) : Registry :=
  if name ∈ regKeys r then r else r ++ [(name, e)]

/-- Models `TwitchBot.remove_ban_event` (also the `pop` in `ban_chatter`): removes
the entry for the name, and only warns when there is none. -/
def removeBanEvent (r : Registry) (name : String) : Registry :=
  r.eraseP (fun p => p.1 == name)

/-- The registry states reachable from the empty dict through the only two
operations that modify `self.ban_events`. -/
inductive RegReachable : Registry → Prop where
  | empty : RegReachable []
  | add (r : Registry) (name : String) (e : Nat) :
      RegReachable r → RegReachable (addBanEvent r name e)
  | remove (r : Registry) (name : String) :
      RegReachable r → RegReachable (removeBanEvent r name)

/-! ## Claim C3 -/

/-- C3: registering a ban event for a subject that already has one is
rejected — the registry is returned unchanged, so the first registration is
retained and the second is not stored — and every reachable registry state
has pairwise-distinct subject names, i.e. at most one pending ban event per
subject. -/
theorem c3_at_most_one_ban_event (r : Registry) (name : String) (e : Nat) :
    (name ∈ regKeys r → addBanEvent r name e = r) ∧
    (RegReachable r → (regKeys r).Nodup) := by
  constructor
  · intro hmem
    unfold addBanEvent
    rw [if_pos hmem]
  · intro hreach
    induction hreach with
    | empty => exact List.nodup_nil
    | add r0 n0 e0 _ ih =>
      unfold addBanEvent
      by_cases hmem : n0 ∈ regKeys r0
      · rw [if_pos hmem]; exact ih
      · rw [if_neg hmem]
        unfold regKeys
        rw [List.map_append]
        simp only [List.map_cons, List.map_nil]
        exact List.Nodup.append ih (List.nodup_singleton n0)
          (by intro a ha hb; simp at hb; subst hb; exact hmem ha)
    | remove r0 n0 _ ih =>
      have hsub : List.Sublist (regKeys (removeBanEvent r0 n0)) (regKeys r0) :=
        List.Sublist.map Prod.fst (List.eraseP_sublist r0)
      exact List.Nodup.sublist hsub ih

/-- Witness for C3: after registering `bob`, a second registration for `bob`
is rejected and the reachable state has distinct keys. -/
theorem c3_at_most_one_ban_event_witness :
    addBanEvent (addBanEvent [] "bob" 1) "bob" 2 = addBanEvent [] "bob" 1 ∧
    (regKeys (addBanEvent [] "bob" 1)).Nodup :=
  ⟨(c3_at_most_one_ban_event (addBanEvent [] "bob" 1) "bob" 2).1 (by decide),
   (c3_at_most_one_ban_event (addBanEvent [] "bob" 1) "bob" 2).2
     (RegReachable.add [] "bob" 1 RegReachable.empty)⟩

/-! ## voting.py: the vote aggregator (claim C7) -/

/-- The constructor configuration of `Voter`. -/
structure VoterCfg where
  votesRequired : Nat
  votePeriod : Nat
  failTimeoutS : Nat
  passTimeoutS : Nat
  doubleNames : List String
  deriving DecidableEq, Repr

/-- Observable `Voter` state: the `vote_open` event, the voter dict (keys in
insertion order), whether the `vote_end_timer` window timer is armed, the
announced outcome of the last ended round (`some true` = passed), and the
re-open cooldown armed by `voting_end`. -/
structure VoterState where
  voteOpen : Bool
  voters : List String
  windowArmed : Bool
  lastOutcome : Option Bool
  cooldown : Option Nat
  deriving DecidableEq, Repr

/-- Models the voter-dict update, mapping the name to None: inserts the key if new. -/
def insKey (l : List String) (k : String) : List String :=
  if k ∈ l then l else l ++ [k]

/-- Models `Voter.voting_end`: closes the voting, announces pass when the voter
count reached `votes_required` and fail otherwise, and arms the re-open timer
with the given timeout. -/
def votingEnd (cfg : VoterCfg) (s : VoterState) (timeoutS : Nat) : VoterState :=
  { s with voteOpen := false,
           lastOutcome := some (decide (cfg.votesRequired ≤ s.voters.length)),
           cooldown := some timeoutS }

/-- The voter dict after one `add_vote` registers `name` (a double-counting
name also inserts `name + "_2"`). -/
def votersAfter (cfg : VoterCfg) (l : List String) (name : String) : List String :=
  if name ∈ cfg.doubleNames then insKey (insKey l name) (name ++ "_2")
  else insKey l name

/-- Models `Voter.add_vote` while the voting is open: insert the voter (twice for a
double-counting name), arm the window timer when this was the first vote of
the round, and when the count reaches `votes_required` cancel the window
timer and end the round immediately with the pass cooldown.  When the voting
is closed the message only reports the remaining cooldown. -/
def addVote (cfg : VoterCfg) (s : VoterState) (name : String) : VoterState :=
  if s.voteOpen then
    let pre := s.voters.length
    let v2 := votersAfter cfg s.voters name
    let s1 := { s with voters := v2 }
    let s2 := if pre = 0 ∧ pre < v2.length then { s1 with windowArmed := true } else s1
    if cfg.votesRequired ≤ v2.length then
      votingEnd cfg { s2 with windowArmed := false } cfg.passTimeoutS
    else s2
  else s

/-- The window timer elapsing: it runs the `voting_end` coroutine that was
created with `fail_timeout_s` when the round started. -/
def windowExpire (cfg : VoterCfg) (s : VoterState) : VoterState :=
  votingEnd cfg { s with windowArmed := false } cfg.failTimeoutS

/-! ## Claim C7 -/

/-- C7: in the open state, if fewer than `votes_required` voter entries are
present when the window timer elapses, the round ends with outcome Fail and
the fail cooldown; if an `add_vote` brings the count to `votes_required`
before expiry, the window timer is canceled (it ends disarmed) and the round
ends immediately with outcome Pass and the pass cooldown. -/
theorem c7_vote_outcomes (cfg : VoterCfg) (s : VoterState) (name : String) :
    (s.voteOpen = true → s.windowArmed = true →
      s.voters.length < cfg.votesRequired →
      windowExpire cfg s =
        { s with voteOpen := false, windowArmed := false,
                 lastOutcome := some false, cooldown := some cfg.failTimeoutS }) ∧
    (s.voteOpen = true →
      cfg.votesRequired ≤ (votersAfter cfg s.voters name).length →
      addVote cfg s name =
        { s with voteOpen := false, voters := votersAfter cfg s.voters name,
                 windowArmed := false, lastOutcome := some true,
                 cooldown := some cfg.passTimeoutS }) := by
  constructor
  · intro _ _ hlt
    unfold windowExpire votingEnd
    have hdec : decide (cfg.votesRequired ≤ s.voters.length) = false := by
      simp only [decide_eq_false_iff_not]
      omega
    simp [hdec]
  · intro hopen hreq
    unfold addVote
    rw [if_pos hopen]
    dsimp only
    rw [if_pos hreq]
    unfold votingEnd
    have hdec : decide (cfg.votesRequired ≤ (votersAfter cfg s.voters name).length) = true :=
      decide_eq_true hreq
    split_ifs <;> simp [hdec]

/-- Witness for C7: with 2 required votes, an open round with one voter fails
on expiry, and a second voter passes the round immediately. -/
theorem c7_vote_outcomes_witness :
    windowExpire ⟨2, 60, 300, 600, []⟩
        ⟨true, ["alice"], true, none, none⟩ =
      { voteOpen := false, voters := ["alice"], windowArmed := false,
        lastOutcome := some false, cooldown := some 300 } ∧
    addVote ⟨2, 60, 300, 600, []⟩ ⟨true, ["alice"], true, none, none⟩ "carol" =
      { voteOpen := false, voters := ["alice", "carol"], windowArmed := false,
        lastOutcome := some true, cooldown := some 600 } := by
  obtain ⟨h1, h2⟩ := c7_vote_outcomes ⟨2, 60, 300, 600, []⟩
    ⟨true, ["alice"], true, none, none⟩ "carol"
  refine ⟨h1 rfl rfl (by decide), ?_⟩
  have := h2 rfl (by decide)
  rw [this]
  decide

/-! ## gambling.py: GambleParser (claims C8, C9, C10) -/

def MAX_LOSS_FACTOR : Int := 500

/-- The value of minus sys.maxsize minus 1 on a 64-bit build: the out-of-funds marker. -/
def OUT_OF_FUNDS : Int := -(2 ^ 63)

/-- State of one run of `gamble_routine`: the shared remaining-bet counter,
the running total, the local `bet` variable, and the log of stakes passed to
`send_gamble`. -/
structure GState where
  remaining : Int
  winnings : Int
  bet : Int
  sent : List Int
  deriving DecidableEq, Repr

/-- What one `wait_for` on the result queue can yield: a timeout, or a parsed
result value put on the queue. -/
inductive GEvent where
  | timeout
  | result (r : Int)
  deriving DecidableEq, Repr

/-- The state after `start_gamble`/the kickoff of `gamble_routine`:
`gambles_remaining = n`, `winnings = 0`, the opening bet of `gamble_base` was
sent, and the local `bet` variable is initialised to 0. -/
def gambleInit (base n : Int) : GState :=
  { remaining := n, winnings := 0, bet := 0, sent := [base] }

/-- One iteration of the `while self.gambles_remaining.value > 0` loop of
`gamble_routine`.  Timeout: re-send the current `bet` and continue.  A result:
out-of-funds zeroes the counter; otherwise the result is added to the total,
the counter decremented, and — when bets remain — a win resets the stake to
the base, a loss beyond `base * MAX_LOSS_FACTOR` zeroes the counter without
betting, and any other loss doubles the stake (`bet = result * -2`). -/
def gambleStep (base : Int) (s : GState) (e : GEvent) : GState :=
  if s.remaining ≤ 0 then s
  else
    match e with
    | GEvent.timeout => { s with sent := s.sent ++ [s.bet] }
    | GEvent.result r =>
      if r = OUT_OF_FUNDS then { s with remaining := 0 }
      else
        let w := s.winnings + r
        let rem := s.remaining - 1
        if 0 < rem then
          if 0 < r then
            { remaining := rem, winnings := w, bet := base, sent := s.sent ++ [base] }
          else if r < base * MAX_LOSS_FACTOR * -1 then
            { s with remaining := 0, winnings := w }
          else
            { remaining := rem, winnings := w, bet := r * -2, sent := s.sent ++ [r * -2] }
        else { s with remaining := rem, winnings := w }

/-- The loop run over a sequence of queue events. -/
def gambleRun (base : Int) (s : GState) (evs : List GEvent) : GState :=
  evs.foldl (gambleStep base) s

/-! ## Claim C8 -/

/-- C8: with bets remaining, an out-of-funds reply zeroes the remaining
counter immediately (nothing more is sent and the total is unchanged); a loss
whose magnitude exceeds `base * MAX_LOSS_FACTOR` stops the session without
sending a further bet; any other loss sets the next stake to exactly twice
the loss magnitude and sends it. -/
theorem c8_loss_handling (base r : Int) (s : GState) (h : 0 < s.remaining) :
    gambleStep base s (GEvent.result OUT_OF_FUNDS) = { s with remaining := 0 } ∧
    (r ≠ OUT_OF_FUNDS → r < 0 → r < -(base * MAX_LOSS_FACTOR) → 1 < s.remaining →
      gambleStep base s (GEvent.result r) =
        { s with remaining := 0, winnings := s.winnings + r }) ∧
    (r ≠ OUT_OF_FUNDS → r < 0 → -(base * MAX_LOSS_FACTOR) ≤ r → 1 < s.remaining →
      gambleStep base s (GEvent.result r) =
        { remaining := s.remaining - 1, winnings := s.winnings + r,
          bet := 2 * -r, sent := s.sent ++ [2 * -r] }) := by
  have hno : ¬s.remaining ≤ 0 := by omega
  refine ⟨?_, ?_, ?_⟩
  · unfold gambleStep
    rw [if_neg hno]
    dsimp only
    rw [if_pos rfl]
  · intro hne hneg hbig hrem
    unfold gambleStep
    rw [if_neg hno]
    dsimp only
    rw [if_neg hne, if_pos (by omega : (0:Int) < s.remaining - 1),
      if_neg (not_lt.mpr (le_of_lt hneg)),
      if_pos (by linarith : r < base * MAX_LOSS_FACTOR * -1)]
  · intro hne hneg hsmall hrem
    unfold gambleStep
    rw [if_neg hno]
    dsimp only
    rw [if_neg hne, if_pos (by omega : (0:Int) < s.remaining - 1),
      if_neg (not_lt.mpr (le_of_lt hneg)),
      if_neg (not_lt.mpr (by linarith : base * MAX_LOSS_FACTOR * -1 ≤ r))]
    have : r * -2 = 2 * -r := by ring
    rw [this]

/-- Witness for C8 with `base = 1`: out-of-funds stops, a loss of 501 stops,
and `Loss(-50)` sets the next stake to 100. -/
theorem c8_loss_handling_witness :
    gambleStep 1 ⟨2, 0, 1, [1]⟩ (GEvent.result OUT_OF_FUNDS) =
      { remaining := 0, winnings := 0, bet := 1, sent := [1] } ∧
    gambleStep 1 ⟨2, 0, 1, [1]⟩ (GEvent.result (-501)) =
      { remaining := 0, winnings := -501, bet := 1, sent := [1] } ∧
    gambleStep 1 ⟨2, 0, 1, [1]⟩ (GEvent.result (-50)) =
      { remaining := 1, winnings := -50, bet := 100, sent := [1, 100] } := by
  obtain ⟨h1, _, _⟩ := c8_loss_handling 1 0 ⟨2, 0, 1, [1]⟩ (by decide)
  obtain ⟨_, h2, _⟩ := c8_loss_handling 1 (-501) ⟨2, 0, 1, [1]⟩ (by decide)
  obtain ⟨_, _, h3⟩ := c8_loss_handling 1 (-50) ⟨2, 0, 1, [1]⟩ (by decide)
  refine ⟨h1, ?_, ?_⟩
  · rw [h2 (by decide) (by decide) (by decide) (by decide)]
    decide
  · rw [h3 (by decide) (by decide) (by decide) (by decide)]
    decide

/-! ## Claim C9 -/

/-- C9: the timeout branch does not advance the session state (counter, total
and `bet` unchanged), but the stake it re-sends is the local `bet` variable —
which is `0`, not the base stake, when the timeout follows the opening bet:
after `start_gamble(base = 1, n = 1)` and one timeout the code sends stake 0
although the last stake sent was 1 (the claim predicts `[1, 1]`). -/
theorem c9_timeout_resend :
    gambleRun 1 (gambleInit 1 1) [GEvent.timeout] =
      { remaining := 1, winnings := 0, bet := 0, sent := [1, 0] } ∧
    (gambleRun 1 (gambleInit 1 1) [GEvent.timeout]).sent ≠ [1, 1] := by
  refine ⟨by decide, by decide⟩

/-! ## gambling.py: parse_message (claim C10) -/

/-- Python exceptions escaping `parse_message`: `AttributeError` from calling
`.group()` on the `None` that `re.search` returns when no digit is found. -/
inductive ParseExc where
  | attributeError
  deriving DecidableEq, Repr

/-- The `chr(1)` control character starting StreamElements action messages. -/
def SOH : String := String.mk [Char.ofNat 1]

def wPre (own : String) : String := SOH ++ "ACTION " ++ own ++ " won "

def wAllPre (own : String) : String :=
  SOH ++ "ACTION PogChamp " ++ own ++ " went all in and won "

def lPre (own : String) : String := SOH ++ "ACTION " ++ own ++ " gambled "

def lAllPre (own : String) : String :=
  SOH ++ "ACTION " ++ own ++ " went all in and lost every single on of their "

def brokeId (own : String) : String := "@" ++ own ++ ", you only have "

/-- Models str.replace with an empty replacement: removes every leftmost
non-overlapping occurrence of `pat`.  The `fuel` only bounds the recursion;
the length of the scanned list always suffices. -/
def stripFuel (pat : List Char) : Nat → List Char → List Char
  | _, [] => []
  | 0, l => l
  | f + 1, c :: rest =>
    if pat ≠ [] ∧ pat.isPrefixOf (c :: rest) then
      stripFuel pat f (List.drop pat.length (c :: rest))
    else c :: stripFuel pat f rest

def stripOcc (pat s : List Char) : List Char := stripFuel pat s.length s

/-- Models re.search for a digit run: the first maximal digit run, as a number. -/
def findFirstNumber : List Char → Option Nat
  | [] => none
  | c :: rest =>
    if c.isDigit then some (digitsVal (c :: rest.takeWhile Char.isDigit))
    else findFirstNumber rest

/-- Models the Python substring test, pat in s. -/
def containsSub (pat : List Char) : List Char → Bool
  | [] => pat.isEmpty
  | c :: rest => pat.isPrefixOf (c :: rest) || containsSub pat rest

/-- Models `GambleParser.parse_message`: non-StreamElements messages yield `None`;
otherwise the four preambles are tried in order — the preamble occurrences
are removed and the first number of the remainder is the (signed) result,
raising `AttributeError` when there is none; a message containing the broke
marker yields `-sys.maxsize - 1`; anything else `None`. -/
def parseMessage (ownName author content : String) : Except ParseExc (Option Int) :=
  if author ≠ "StreamElements" then Except.ok none
  else if List.isPrefixOf (wPre ownName).data content.data then
    match findFirstNumber (stripOcc (wPre ownName).data content.data) with
    | some n => Except.ok (some (n : Int))
    | none => Except.error ParseExc.attributeError
  else if List.isPrefixOf (wAllPre ownName).data content.data then
    match findFirstNumber (stripOcc (wAllPre ownName).data content.data) with
    | some n => Except.ok (some (n : Int))
    | none => Except.error ParseExc.attributeError
  else if List.isPrefixOf (lPre ownName).data content.data then
    match findFirstNumber (stripOcc (lPre ownName).data content.data) with
    | some n => Except.ok (some (-(n : Int)))
    | none => Except.error ParseExc.attributeError
  else if List.isPrefixOf (lAllPre ownName).data content.data then
    match findFirstNumber (stripOcc (lAllPre ownName).data content.data) with
    | some n => Except.ok (some (-(n : Int)))
    | none => Except.error ParseExc.attributeError
  else if containsSub (brokeId ownName).data content.data then
    Except.ok (some OUT_OF_FUNDS)
  else Except.ok none

/-! ## Claim C10 -/

/-- C10: the parser is not total — a StreamElements message that starts with
the win preamble but whose remainder has no digit raises `AttributeError`
(`re.search` returns `None` and `.group()` fails), while a digit-bearing
remainder parses fine. -/
theorem c10_parse_message_raises :
    parseMessage "bot" "StreamElements" (SOH ++ "ACTION bot won nothing") =
      Except.error ParseExc.attributeError ∧
    parseMessage "bot" "StreamElements" (SOH ++ "ACTION bot won 12 points") =
      Except.ok (some 12) := by
  refine ⟨by decide, by decide⟩

end SCM
